import Mathlib

/-!
Verification of the session-lifecycle and consent-gated screening core of a
hospital-facing breast-cancer screening web client.  The JavaScript source
(React components and contexts) is embedded shallowly: each event handler
becomes a pure function on an explicit component-state record, and each
asynchronous network call is modelled by quantifying over its outcome.
-/

namespace BreastCancer

/- ## JavaScript string primitives

`String.prototype.trim` removes WhiteSpace and LineTerminator code points from
both ends; `String.prototype.toLowerCase` lowercases (modelled for the ASCII
range, which covers every string the client compares against). -/

def jsIsWhitespace (c : Char) : Bool :=
  c == ' ' || c == '\t' || c == '\n' || c == '\r' ||
  c == Char.ofNat 11 || c == Char.ofNat 12 || c == Char.ofNat 160 ||
  c == Char.ofNat 0x1680 || (0x2000 ≤ c.toNat && c.toNat ≤ 0x200a) ||
  c == Char.ofNat 0x2028 || c == Char.ofNat 0x2029 ||
  c == Char.ofNat 0x202f || c == Char.ofNat 0x205f ||
  c == Char.ofNat 0x3000 || c == Char.ofNat 0xfeff

def jsTrim (s : String) : String :=
  String.mk ((((s.data.dropWhile jsIsWhitespace).reverse).dropWhile jsIsWhitespace).reverse)

def jsToLower (s : String) : String :=
  String.mk (s.data.map Char.toLower)

/- ## DisclaimerModal.js — the Consent Gate

Local component state: `hasReadFully` (checkbox) and `userConfirmation`
(free-text challenge).  The accept button is enabled, and the accept handler
calls `onAccept`, exactly under the same normalized-text condition. -/

def isAcceptEnabled (hasReadFully : Bool) (userConfirmation : String) : Bool :=
  hasReadFully && (jsToLower (jsTrim userConfirmation) == ("i understand"))

/-- `handleAccept` invokes `onAccept` only inside
`if (hasReadFully && normalizedInput === 'i understand')`; this function
returns whether `onAccept` is invoked. -/
def handleAcceptProceeds (hasReadFully : Bool) (userConfirmation : String) : Bool :=
  hasReadFully && (jsToLower (jsTrim userConfirmation) == ("i understand"))

/- ## Screening.js — component state and handlers -/

structure JsFile where
  name : String
  type : String
deriving DecidableEq, Repr

structure Patient where
  id : Nat
  full_name : String
  mrn : String
deriving DecidableEq, Repr

/-- The `analysis` object of a successful response, as the component reads it
(optional chaining: every field may be absent). -/
structure AnalysisPayload where
  result : Option String
  probability : Option ℚ
  risk_level : Option String
  risk_icon : Option String
  malignant_prob : Option ℚ
  benign_prob : Option ℚ
  mode : Option String
  demo_warning : Option String
deriving DecidableEq, Repr

structure AnalysisData where
  analysis : AnalysisPayload
  scan_id : Option Nat
  patient_name : Option String
deriving DecidableEq, Repr

/-- The `useState` cells of the `Screening` component. -/
structure ScreeningState where
  selectedPatient : Option Patient
  showDisclaimer : Bool
  disclaimerAccepted : Bool
  selectedFile : Option JsFile
  previewUrl : Option String
  analyzing : Bool
  results : Option AnalysisData
  error : Option String
  doctorNotes : String
deriving DecidableEq, Repr

/-- JavaScript `String.prototype.startsWith`, over the character sequence. -/
def jsStartsWith (s p : String) : Bool := List.isPrefixOf p.data s.data

def handlePatientSelect (patient : Patient) (s : ScreeningState) : ScreeningState :=
  { s with selectedPatient := some patient
         , results := none
         , error := none
         , selectedFile := none
         , previewUrl := none
         , disclaimerAccepted := false
         , showDisclaimer := false }

/-- `handleFileSelect`: `e.target.files[0]` modelled as an `Option JsFile`,
`URL.createObjectURL` as an uninterpreted function. -/
def handleFileSelect (file : Option JsFile) (createObjectURL : JsFile → String)
    (s : ScreeningState) : ScreeningState :=
  match file with
  | none => s
  | some f =>
    if !(jsStartsWith f.type ("image/")) then
      { s with error := some ("Please select an image file") }
    else
      { s with selectedFile := some f
             , previewUrl := some (createObjectURL f)
             , error := none }

def handleDisclaimerDecline (s : ScreeningState) : ScreeningState :=
  { s with showDisclaimer := false
         , selectedFile := none
         , previewUrl := none
         , disclaimerAccepted := false }

def resetAnalysis (s : ScreeningState) : ScreeningState :=
  { s with selectedFile := none
         , previewUrl := none
         , results := none
         , error := none
         , doctorNotes := ""
         , disclaimerAccepted := false }

/-- JavaScript `a || b` on an optional string (absent and empty are falsy). -/
def jsOrString (a : Option String) (b : String) : String :=
  match a with
  | some s => if s == "" then b else s
  | none => b

/-- Outcome of the `fetch` to `/medical-staff/scans/analyze`: a 2xx response
with parsed data, a non-ok response (with the `detail` field of its error
payload when the body parses, `none` otherwise — the `.catch` turns a parse
failure into `detail = "Unknown error"` before this point, so `none` here
means the payload had no usable `detail`), or a thrown network error. -/
inductive FetchOutcome
  | success (data : AnalysisData)
  | httpError (status : Nat) (detail : Option String)
  | networkError (msg : String)
deriving DecidableEq, Repr

/-- The synchronous prefix of `performAnalysis`: the early return when no
file or no patient is selected, then `setAnalyzing(true)`, `setError(null)`. -/
def performAnalysisStart (s : ScreeningState) : ScreeningState :=
  if s.selectedFile.isNone || s.selectedPatient.isNone then s
  else { s with analyzing := true, error := none }

/-- The continuation of `performAnalysis` that runs when the fetch settles,
applied to whatever the component state is at that moment: `setResults(data)`
on ok, `setError(...)` on a non-ok status or thrown error, and
`setAnalyzing(false)` in the `finally` block.  No branch touches the
session: `logout` is not in scope in `Screening`. -/
def performAnalysisSettle (outcome : FetchOutcome) (s : ScreeningState) : ScreeningState :=
  match outcome with
  | .success data => { s with results := some data, analyzing := false }
  | .httpError status detail =>
      { s with error := some (jsOrString detail
                 (("Analysis failed with status ") ++ toString status))
             , analyzing := false }
  | .networkError msg => { s with error := some msg, analyzing := false }

/-- Multipart form values: the staged image file or a plain string field. -/
inductive FormValue
  | file (f : JsFile)
  | str (s : String)
deriving DecidableEq, Repr

/-- The `FormData` built by `performAnalysis`: `image`, then `doctor_notes`
only when the trimmed notes are nonempty (truthy), then the literal string
`true` under `disclaimer_accepted`. -/
def buildAnalysisFormData (file : JsFile) (doctorNotes : String) :
    List (String × FormValue) :=
  [(("image"), FormValue.file file)]
  ++ (if jsTrim doctorNotes == "" then [] else [(("doctor_notes"), FormValue.str doctorNotes)])
  ++ [(("disclaimer_accepted"), FormValue.str ("true"))]

structure AnalysisRequest where
  patientId : Nat
  formData : List (String × FormValue)
deriving DecidableEq, Repr

/-- The request `performAnalysis` issues, `none` when the early-return guard
fires. -/
def performAnalysisRequest (s : ScreeningState) : Option AnalysisRequest :=
  match s.selectedFile, s.selectedPatient with
  | some f, some p => some { patientId := p.id, formData := buildAnalysisFormData f s.doctorNotes }
  | _, _ => none

/-- The Start Analysis button click: open the disclaimer modal when it has
not been accepted, otherwise submit. -/
def startAnalysisClick (s : ScreeningState) : ScreeningState :=
  if !s.disclaimerAccepted then { s with showDisclaimer := true }
  else performAnalysisStart s

/-- The workflow phase the component renders, derived from its render
branching: no patient → patient management, results → results section,
in-flight → submitting, no staged file → upload prompt, else staged. -/
inductive Phase
  | awaitingPatient
  | awaitingImage
  | imageStaged
  | submitting
  | succeeded
deriving DecidableEq, Repr

def phase (s : ScreeningState) : Phase :=
  if s.selectedPatient.isNone then .awaitingPatient
  else if s.results.isSome then .succeeded
  else if s.analyzing then .submitting
  else if s.selectedFile.isNone then .awaitingImage
  else .imageStaged

/- ## AuthContext.js, localStorage variant (fetch-based; the one `Screening`
consumes via `useAuth`) -/

/-- The two localStorage keys the auth context reads and writes. -/
structure CredStore where
  token : Option String
  user : Option String
deriving DecidableEq, Repr

/-- React state of `AuthProvider` plus the backing localStorage. -/
structure AuthState where
  user : Option String
  token : Option String
  storage : CredStore
deriving DecidableEq, Repr

def anonymousAuthState : AuthState :=
  { user := none, token := none, storage := { token := none, user := none } }

/-- `logout` (localStorage variant): `setUser(null)`, `setToken(null)`,
`localStorage.removeItem` on both keys, wrapped in a try/catch; every step
is non-throwing, so the catch arm is dead and the call always returns
normally.  No server call is made. -/
def logout (s : AuthState) : Except String AuthState :=
  let cleared := { s with user := none, token := none
                        , storage := { token := none, user := none } }
  Except.ok cleared

def applyLogout (s : AuthState) : AuthState :=
  match logout s with
  | .ok s2 => s2
  | .error _ => s

/-- Outcome of the `GET /auth/me` fetch: a response with its `ok` flag, or a
thrown network/transport exception. -/
inductive VerifyOutcome
  | response (ok : Bool)
  | thrown (msg : String)
deriving DecidableEq, Repr

def verifyPositive : VerifyOutcome → Bool
  | .response ok => ok
  | .thrown _ => false

/-- `verifyToken`: returns `true` on an ok response; on a non-ok response or
a thrown exception, awaits `logout()` and returns `false`. -/
def verifyToken (outcome : VerifyOutcome) (s : AuthState) : Bool × AuthState :=
  match outcome with
  | .response true => (true, s)
  | .response false => (false, applyLogout s)
  | .thrown _ => (false, applyLogout s)

/-- The mount effect of `AuthProvider`: when both stored keys are present,
populate React state from storage and run `verifyToken`, resolving
`loading` to `false` in the `finally`; otherwise just resolve `loading`.
Returns the final auth state and the final `loading` flag. -/
def appStartup (storage : CredStore) (outcome : VerifyOutcome) : AuthState × Bool :=
  match storage.token, storage.user with
  | some t, some u =>
      ((verifyToken outcome { user := some u, token := some t, storage := storage }).2, false)
  | _, _ => ({ user := none, token := none, storage := storage }, false)

/- ## The Screening component paired with its auth context (for the 401 path) -/

structure HospitalApp where
  auth : AuthState
  screening : ScreeningState
  logoutRuns : Nat
deriving DecidableEq, Repr

/-- Settling the inference fetch at app level: `performAnalysis` handles a
non-ok response by throwing into its own catch, which only sets the local
error; it never calls `logout`, so the auth state and the logout counter
are untouched for every outcome, 401 included. -/
def screeningSubmitSettle (outcome : FetchOutcome) (app : HospitalApp) : HospitalApp :=
  { app with screening := performAnalysisSettle outcome app.screening }

/- ## AuthContext.js, axios variant (the one with the response interceptor) -/

/-- Outcome of the best-effort `POST /auth/logout`. -/
inductive ServerOutcome
  | ok
  | failed (msg : String)
deriving DecidableEq, Repr

/-- Observable steps of the axios-variant `logout`, in execution order. -/
inductive AuthEvent
  | serverLogoutPost (outcome : ServerOutcome)
  | clearCredentials
deriving DecidableEq, Repr

/-- Axios-variant provider state: React `user`, the localStorage token, and a
counter of completed `logout` runs. -/
structure AxiosAuthApp where
  user : Option String
  tokenStorage : Option String
  logoutRuns : Nat
deriving DecidableEq, Repr

/-- `logout` (axios variant): `try { await axiosInstance.post(/auth/logout) }
catch { log } finally { removeItem(token); setUser(null) }`.  The trace
records that the awaited server call comes first and the credential clear
second; the clear runs for every outcome and nothing is rethrown. -/
def logoutAxios (outcome : ServerOutcome) (s : AxiosAuthApp) :
    List AuthEvent × AxiosAuthApp :=
  ([AuthEvent.serverLogoutPost outcome, AuthEvent.clearCredentials],
   { user := none, tokenStorage := none, logoutRuns := s.logoutRuns + 1 })

/-- The axios response interceptor error arm: on `error.response?.status ===
401` it invokes `logout()` (then rejects the promise onward); any other
status passes through. -/
def axiosInterceptorOnError (status : Option Nat) (serverOutcome : ServerOutcome)
    (s : AxiosAuthApp) : AxiosAuthApp :=
  if status == some 401 then (logoutAxios serverOutcome s).2 else s

/- ## RoleBasedDashboard.js — the Role Router -/

def knownRoles : List String :=
  [("super_admin"), ("organization_admin"), ("doctor"), ("lab_tech"), ("patient")]

inductive Affordance
  | backToLogin
deriving DecidableEq, Repr

inductive DashboardView
  | loadingSpinner
  | navigateToLogin
  | superAdminDashboard
  | hospitalAdminDashboard
  | medicalStaffDashboard
  | patientDashboard
  | accessDenied (roleShown : Option String) (affordances : List Affordance)
deriving DecidableEq, Repr

/-- The `user` value as the router reads it: `user.role` may be absent. -/
structure UserLite where
  role : Option String
deriving DecidableEq, Repr

/-- `RoleBasedDashboard`: loading → spinner; no user → redirect to login;
then the `switch (user.role)` with `doctor` and `lab_tech` falling through
to the shared medical-staff dashboard, and the `default` arm rendering the
Access Denied view whose only interactive element is the Back to Login
button. -/
def RoleBasedDashboard (loading : Bool) (user : Option UserLite) : DashboardView :=
  if loading then .loadingSpinner
  else
    match user with
    | none => .navigateToLogin
    | some u =>
      if u.role == some ("super_admin") then .superAdminDashboard
      else if u.role == some ("organization_admin") then .hospitalAdminDashboard
      else if u.role == some ("doctor") then .medicalStaffDashboard
      else if u.role == some ("lab_tech") then .medicalStaffDashboard
      else if u.role == some ("patient") then .patientDashboard
      else .accessDenied u.role [Affordance.backToLogin]

/- ## The rendered results section of Screening.js -/

/-- `Number.prototype.toFixed(1)` on the (non-negative) percentages shown. -/
def toFixed1 (q : ℚ) : ℚ := (round (10 * q) : ℤ) / 10

/-- JavaScript `a || 0` on an optional number. -/
def jsOrZero (a : Option ℚ) : ℚ := a.getD 0

/-- What the results section displays.  The JSX renders the prediction, the
confidence, the risk level and the two probability bars unconditionally;
it contains no comparison of `benign_prob + malignant_prob` against 100,
so no integrity annotation exists and the flag is constantly false. -/
structure RenderedResults where
  resultText : String
  confidencePct : ℚ
  riskLevelText : String
  malignantPct : ℚ
  benignPct : ℚ
  integrityFlag : Bool
deriving DecidableEq, Repr

def renderResults (data : AnalysisData) : RenderedResults :=
  { resultText := jsOrString data.analysis.result ("N/A")
  , confidencePct := toFixed1 (jsOrZero data.analysis.probability)
  , riskLevelText := jsOrString data.analysis.risk_level ("Unknown")
  , malignantPct := toFixed1 (jsOrZero data.analysis.malignant_prob)
  , benignPct := toFixed1 (jsOrZero data.analysis.benign_prob)
  , integrityFlag := false }

/- ## Concrete fixtures used to evaluate the model -/

def janeDoe : Patient := { id := 1, full_name := ("Jane Doe"), mrn := ("MRN-001") }

def maryPoe : Patient := { id := 2, full_name := ("Mary Poe"), mrn := ("MRN-002") }

def jpegFile : JsFile := { name := ("scan.jpg"), type := ("image/jpeg") }

def pdfFile : JsFile := { name := ("report.pdf"), type := ("application/pdf") }

/-- A patient selected, no file staged yet. -/
def awaitingImageState : ScreeningState :=
  { selectedPatient := some janeDoe, showDisclaimer := false
  , disclaimerAccepted := false, selectedFile := none, previewUrl := none
  , analyzing := false, results := none, error := none, doctorNotes := "" }

/-- A submission for Jane Doe in flight. -/
def submittingState : ScreeningState :=
  { selectedPatient := some janeDoe, showDisclaimer := false
  , disclaimerAccepted := true, selectedFile := some jpegFile
  , previewUrl := some ("blob:scan"), analyzing := true
  , results := none, error := none, doctorNotes := "" }

def loggedInAuth : AuthState :=
  { user := some ("drjones"), token := some ("tok123")
  , storage := { token := some ("tok123"), user := some ("drjones") } }

def submittingApp : HospitalApp :=
  { auth := loggedInAuth, screening := submittingState, logoutRuns := 0 }

/-- A well-formed success payload for Jane Doe. -/
def staleResult : AnalysisData :=
  { analysis :=
      { result := some ("Benign"), probability := some 93
      , risk_level := some ("Low"), risk_icon := none
      , malignant_prob := some 7, benign_prob := some 93
      , mode := none, demo_warning := none }
  , scan_id := some 41, patient_name := some ("Jane Doe") }

/-- A success payload whose class probabilities sum to 80, not 100. -/
def sum80Result : AnalysisData :=
  { analysis :=
      { result := some ("Benign"), probability := some 70
      , risk_level := some ("Low"), risk_icon := none
      , malignant_prob := some 10, benign_prob := some 70
      , mode := none, demo_warning := none }
  , scan_id := some 42, patient_name := some ("Jane Doe") }

end BreastCancer

namespace BreastCancer

/-- Claim C1: the Consent Gate is satisfied (accept enabled and the accept handler
proceeds) exactly when the checkbox is set and the challenge text, trimmed
and lowercased, equals "i understand"; any other input fails closed. -/
theorem consent_gate_satisfied_iff (b : Bool) (s : String) :
    (isAcceptEnabled b s = true ∧ handleAcceptProceeds b s = true) ↔
      (b = true ∧ jsToLower (jsTrim s) = ("i understand")) := by
  unfold isAcceptEnabled handleAcceptProceeds
  constructor
  · rintro ⟨h, -⟩
    rcases Bool.and_eq_true .. ▸ h with ⟨hb, ht⟩
    exact ⟨hb, by simpa using ht⟩
  · rintro ⟨hb, ht⟩
    subst hb
    simp [ht]

/-- Claim C2 counterexample: a 401 on the inference submission does not log
the session out — the auth state, stored token and logout counter are
untouched; only a local error is set. -/
theorem submission_401_keeps_session :
    (screeningSubmitSettle (FetchOutcome.httpError 401 (some ("Not authenticated"))) submittingApp).auth
      = loggedInAuth ∧
    (screeningSubmitSettle (FetchOutcome.httpError 401 (some ("Not authenticated"))) submittingApp).auth.storage.token
      = some ("tok123") ∧
    (screeningSubmitSettle (FetchOutcome.httpError 401 (some ("Not authenticated"))) submittingApp).logoutRuns
      = 0 ∧
    (screeningSubmitSettle (FetchOutcome.httpError 401 (some ("Not authenticated"))) submittingApp).screening.error
      = some ("Not authenticated") ∧
    (screeningSubmitSettle (FetchOutcome.httpError 401 (some ("Not authenticated"))) submittingApp).screening.results
      = none :=
  ⟨rfl, rfl, rfl, rfl, rfl⟩

/-- Claim C2 (amended): a 401 surfaced through the shared axios instance runs
`logout` on every occurrence, with no once-per-session debounce (two 401s run
it twice); the inference submission uses plain `fetch`, and its 401 leaves
the auth state and logout counter unchanged, producing only a local error. -/
theorem http401_logout_paths (d : Option String) (app : HospitalApp)
    (o o2 : ServerOutcome) (a : AxiosAuthApp) :
    (screeningSubmitSettle (FetchOutcome.httpError 401 d) app).auth = app.auth ∧
    (screeningSubmitSettle (FetchOutcome.httpError 401 d) app).logoutRuns = app.logoutRuns ∧
    (screeningSubmitSettle (FetchOutcome.httpError 401 d) app).screening.error
      = some (jsOrString d (("Analysis failed with status ") ++ toString 401)) ∧
    axiosInterceptorOnError (some 401) o a = (logoutAxios o a).2 ∧
    (axiosInterceptorOnError (some 401) o a).logoutRuns = a.logoutRuns + 1 ∧
    (axiosInterceptorOnError (some 401) o2 (axiosInterceptorOnError (some 401) o a)).logoutRuns
      = a.logoutRuns + 2 ∧
    (axiosInterceptorOnError (some 401) o a).tokenStorage = none :=
  ⟨rfl, rfl, rfl, rfl, rfl, rfl, rfl⟩

/-- Claim C3 counterexample: with a submission for Jane Doe in flight,
selecting Mary Poe clears the results, yet when the stale fetch settles its
payload populates the results of the attempt now belonging to Mary Poe. -/
theorem stale_response_overwrites_new_attempt :
    (handlePatientSelect maryPoe submittingState).results = none ∧
    (handlePatientSelect maryPoe submittingState).selectedPatient = some maryPoe ∧
    (performAnalysisSettle (FetchOutcome.success staleResult)
        (handlePatientSelect maryPoe submittingState)).results = some staleResult ∧
    (performAnalysisSettle (FetchOutcome.success staleResult)
        (handlePatientSelect maryPoe submittingState)).selectedPatient = some maryPoe :=
  ⟨rfl, rfl, rfl, rfl⟩

/-- Claim C3 (amended): selecting a new patient synchronously clears results,
error and staged file, but the component has no staleness guard: the eventual
response of the old in-flight submission still lands — a late success
populates `results`, a late failure populates `error`, on the new attempt. -/
theorem stale_response_applied (s : ScreeningState) (p : Patient)
    (d : AnalysisData) (msg : String) :
    (handlePatientSelect p s).results = none ∧
    (handlePatientSelect p s).error = none ∧
    (handlePatientSelect p s).selectedFile = none ∧
    (performAnalysisSettle (FetchOutcome.success d) (handlePatientSelect p s)).results
      = some d ∧
    (performAnalysisSettle (FetchOutcome.networkError msg) (handlePatientSelect p s)).error
      = some msg :=
  ⟨rfl, rfl, rfl, rfl, rfl⟩

/-- Claim C4 counterexample: in the axios variant the first observable step
of `logout` is the awaited server call, not the credential clear — the clear
is sequenced after the `POST /auth/logout` settles, contradicting
clear-first ordering. -/
theorem logout_axios_order_counterexample :
    (logoutAxios ServerOutcome.ok
        { user := some ("drjones"), tokenStorage := some ("tok123"), logoutRuns := 0 }).1
      = [AuthEvent.serverLogoutPost ServerOutcome.ok, AuthEvent.clearCredentials] ∧
    (logoutAxios ServerOutcome.ok
        { user := some ("drjones"), tokenStorage := some ("tok123"), logoutRuns := 0 }).1.head?
      ≠ some AuthEvent.clearCredentials := by
  constructor
  · rfl
  · intro h
    exact absurd h (by decide)

/-- Claim C4 (amended): the localStorage-variant `logout` clears the
Credential Store synchronously and makes no server call at all; the
axios-variant `logout` awaits the server notification first and clears the
store afterwards in its `finally` — the clear always runs, for success and
failure alike, but after the server call rather than before it. -/
theorem logout_clear_after_server (o : ServerOutcome) (s : AxiosAuthApp) (t : AuthState) :
    (logoutAxios o s).1 = [AuthEvent.serverLogoutPost o, AuthEvent.clearCredentials] ∧
    (logoutAxios o s).2.user = none ∧
    (logoutAxios o s).2.tokenStorage = none ∧
    logout t = Except.ok anonymousAuthState :=
  ⟨rfl, rfl, rfl, rfl⟩

/-- Claim C5: `logout` is idempotent — the first call empties the Credential
Store, the second call on the already-empty state returns normally (`ok`,
nothing thrown) and the store stays empty. -/
theorem logout_idempotent (s : AuthState) :
    logout s = Except.ok anonymousAuthState ∧
    logout anonymousAuthState = Except.ok anonymousAuthState ∧
    anonymousAuthState.storage.token = none ∧
    anonymousAuthState.storage.user = none :=
  ⟨rfl, rfl, rfl, rfl⟩

/-- Claim C6: every role outside the five known ones (a missing role
included) lands in the Access Denied view with the single Back to Login
affordance, never a dashboard; each known role gets its dashboard variant,
and an absent user is redirected to the login route. -/
theorem role_router_unknown_denied (r : Option String)
    (h : r ∉ List.map some knownRoles) :
    RoleBasedDashboard false (some { role := r })
      = DashboardView.accessDenied r [Affordance.backToLogin] ∧
    RoleBasedDashboard false (some { role := some ("super_admin") })
      = DashboardView.superAdminDashboard ∧
    RoleBasedDashboard false (some { role := some ("organization_admin") })
      = DashboardView.hospitalAdminDashboard ∧
    RoleBasedDashboard false (some { role := some ("doctor") })
      = DashboardView.medicalStaffDashboard ∧
    RoleBasedDashboard false (some { role := some ("lab_tech") })
      = DashboardView.medicalStaffDashboard ∧
    RoleBasedDashboard false (some { role := some ("patient") })
      = DashboardView.patientDashboard ∧
    RoleBasedDashboard false none = DashboardView.navigateToLogin := by
  refine ⟨?_, rfl, rfl, rfl, rfl, rfl, rfl⟩
  simp only [knownRoles, List.map, List.mem_cons, List.not_mem_nil, or_false, not_or] at h
  obtain ⟨h1, h2, h3, h4, h5⟩ := h
  simp [RoleBasedDashboard, h1, h2, h3, h4, h5]

/-- Claim C6 witness: the unknown role nurse is denied. -/
theorem role_router_unknown_denied_witness :
    RoleBasedDashboard false (some { role := some ("nurse") })
      = DashboardView.accessDenied (some ("nurse")) [Affordance.backToLogin] :=
  (role_router_unknown_denied (some ("nurse")) (by decide)).1

/-- Claim C7: staging a file whose MIME type is not `image/...` only sets the
inline error — the staged file and preview are untouched and the rendered
workflow phase does not move. -/
theorem nonimage_file_rejected (s : ScreeningState) (f : JsFile)
    (url : JsFile → String)
    (h : jsStartsWith f.type ("image/") = false) :
    handleFileSelect (some f) url s
      = { s with error := some ("Please select an image file") } ∧
    (handleFileSelect (some f) url s).selectedFile = s.selectedFile ∧
    (handleFileSelect (some f) url s).previewUrl = s.previewUrl ∧
    phase (handleFileSelect (some f) url s) = phase s := by
  have he : handleFileSelect (some f) url s
      = { s with error := some ("Please select an image file") } := by
    simp [handleFileSelect, h]
  exact ⟨he, by rw [he], by rw [he], by rw [he]; rfl⟩

/-- Claim C7 witness: a PDF staged while awaiting an image is rejected with
the inline error and the state does not advance. -/
theorem nonimage_file_rejected_witness :
    handleFileSelect (some pdfFile) (fun _ => ("blob:preview")) awaitingImageState
      = { awaitingImageState with error := some ("Please select an image file") } ∧
    (handleFileSelect (some pdfFile) (fun _ => ("blob:preview")) awaitingImageState).selectedFile
      = awaitingImageState.selectedFile ∧
    (handleFileSelect (some pdfFile) (fun _ => ("blob:preview")) awaitingImageState).previewUrl
      = awaitingImageState.previewUrl ∧
    phase (handleFileSelect (some pdfFile) (fun _ => ("blob:preview")) awaitingImageState)
      = phase awaitingImageState :=
  nonimage_file_rejected awaitingImageState pdfFile (fun _ => ("blob:preview")) (by decide)

/-- Claim C8 counterexample: a success payload whose probabilities sum to 80
is rendered with no integrity flag — the result is shown unannotated. -/
theorem prob_sum_mismatch_not_flagged :
    jsOrZero sum80Result.analysis.benign_prob
        + jsOrZero sum80Result.analysis.malignant_prob ≠ 100 ∧
    (renderResults sum80Result).integrityFlag = false ∧
    (renderResults sum80Result).benignPct = 70 ∧
    (renderResults sum80Result).malignantPct = 10 ∧
    (renderResults sum80Result).resultText = ("Benign") := by
  refine ⟨?_, rfl, ?_, ?_, rfl⟩ <;>
    norm_num [sum80Result, jsOrZero, renderResults, toFixed1]

/-- Claim C8 (amended): the results section renders every success payload the
same way — probabilities to one decimal, prediction and risk as received —
and contains no sum check, so no payload is ever visually flagged; a
mismatched sum is still displayed (the success still populates `results`). -/
theorem results_rendered_unflagged (d : AnalysisData) (s : ScreeningState) :
    (renderResults d).integrityFlag = false ∧
    (performAnalysisSettle (FetchOutcome.success d) s).results = some d ∧
    (renderResults d).benignPct = toFixed1 (jsOrZero d.analysis.benign_prob) ∧
    (renderResults d).malignantPct = toFixed1 (jsOrZero d.analysis.malignant_prob) :=
  ⟨rfl, rfl, rfl, rfl⟩

/-- Claim C9: `verifyToken` returns `true` only on an ok response; both a
non-2xx response and a thrown transport exception run `logout`, leaving the
Anonymous state with the Credential Store cleared, and the startup effect
then resolves `loading` with the session anonymous. -/
theorem verify_failure_clears_session (outcome : VerifyOutcome) (s : AuthState)
    (t u msg : String) :
    verifyToken outcome s
      = (verifyPositive outcome,
         if verifyPositive outcome then s else anonymousAuthState) ∧
    verifyToken (VerifyOutcome.thrown msg) s = (false, anonymousAuthState) ∧
    appStartup { token := some t, user := some u } (VerifyOutcome.thrown msg)
      = (anonymousAuthState, false) := by
  refine ⟨?_, rfl, rfl⟩
  cases outcome with
  | response ok => cases ok <;> rfl
  | thrown m => rfl

/-- Claim C10: the submitted form always carries `disclaimer_accepted` as the
literal string true, independent of the recorded consent state (flipping
`disclaimerAccepted` leaves the request unchanged); the gating lives in the
UI, where clicking Start Analysis with consent unaccepted opens the modal
instead of submitting. -/
theorem disclaimer_field_constant (s : ScreeningState) (b : Bool) (f : JsFile)
    (notes : String) :
    performAnalysisRequest { s with disclaimerAccepted := b }
      = performAnalysisRequest s ∧
    (("disclaimer_accepted"), FormValue.str ("true")) ∈ buildAnalysisFormData f notes ∧
    (startAnalysisClick { s with disclaimerAccepted := false }).showDisclaimer = true ∧
    (startAnalysisClick { s with disclaimerAccepted := false }).analyzing = s.analyzing := by
  refine ⟨rfl, ?_, rfl, rfl⟩
  unfold buildAnalysisFormData
  split <;> simp

end BreastCancer
